import Mathlib

/-!
Verification development for the samsip order-management backend
(`app/main.py`, `app/models.py`, `app/database.py`, `app/schemas.py`).

The Python handlers are shallowly embedded as pure Lean functions over an
explicit store (`DB`).  A request handler becomes a function from the
committed store (plus the request payload and ambient time) to a result
together with the committed store after the request:

* SQLAlchemy `flush` is modelled by threading the in-transaction store
  through the computation;
* `commit` is the point where the in-transaction store becomes the new
  committed store;
* an exception caught by a handler's `except` block performs `rollback`,
  i.e. the committed store is returned unchanged.

Machine floats are modelled as rationals (`ℚ`): none of the verified claims
depends on rounding, overflow of `float(huge_int)`, or on non-finite
literals (`inf` / `nan`), which are therefore outside the model.
-/

deriving instance DecidableEq for Except

namespace Samsip

/-- A spreadsheet cell value as produced by `openpyxl` with `data_only=True`:
`None`, text, `int`, `float`, `bool`, or a `datetime` (date cells). -/
inductive Cell where
  | none
  | str (s : String)
  | int (n : Int)
  | float (q : ℚ)
  | bool (b : Bool)
  | date (y m d : Nat)
deriving DecidableEq, Repr

/-- Python truthiness of a cell value (`bool(value)`): `None`, `""`, `0`,
`0.0` and `False` are falsy; a `datetime` is always truthy. -/
def Cell.truthy : Cell → Bool
  | .none => false
  | .str s => s ≠ ""
  | .int n => n ≠ 0
  | .float q => q ≠ 0
  | .bool b => b
  | .date _ _ _ => true

/-- Left-pad a numeral to two digits. -/
def pad2 (n : Nat) : String :=
  if n < 10 then "0" ++ toString n else toString n

/-- Left-pad a numeral to four digits. -/
def pad4 (n : Nat) : String :=
  if n < 10 then "000" ++ toString n
  else if n < 100 then "00" ++ toString n
  else if n < 1000 then "0" ++ toString n
  else toString n

/-- Decimal digits of the fractional part `num / den`, at most `fuel` digits.
Used by `floatRepr` below. -/
def fracDigits : Nat → Nat → Nat → String
  | 0, _, _ => ""
  | _, 0, _ => ""
  | fuel + 1, num, den =>
    let num10 := num * 10
    toString (num10 / den) ++ fracDigits fuel (num10 % den) den

/-- Simplified model of Python `str(float)`: sign, integer part, a dot and the
fractional digits.  CPython's shortest-roundtrip repr is not reproduced; no
verified claim depends on the text of a float, only on the fact that it
contains a dot and is not a date. -/
def floatRepr (q : ℚ) : String :=
  let sign := if q < 0 then "-" else ""
  let a := q.num.natAbs
  let den := q.den
  let frac := fracDigits 17 (a % den) den
  sign ++ toString (a / den) ++ "." ++ (if frac = "" then "0" else frac)

/-- Python `str(value)` applied to a cell (`str(None) = "None"`;
`str(datetime(y, m, d)) = "YYYY-MM-DD 00:00:00"`). -/
def Cell.pyStr : Cell → String
  | .none => "None"
  | .str s => s
  | .int n => toString n
  | .float q => floatRepr q
  | .bool b => if b then "True" else "False"
  | .date y m d => pad4 y ++ "-" ++ pad2 m ++ "-" ++ pad2 d ++ " 00:00:00"

/-- Python `str(cell or default)` as used by the ingestion routine
(for example `str(row[4] or "개")`). -/
def cellOrDefault (c : Cell) (dflt : String) : String :=
  if c.truthy then c.pyStr else dflt

/-- Drop leading and trailing whitespace from a character list
(Python `str.strip()`). -/
def stripChars (cs : List Char) : List Char :=
  ((cs.dropWhile Char.isWhitespace).reverse.dropWhile Char.isWhitespace).reverse

/-- Value of a digit character list read in base ten. -/
def digitsToNat (cs : List Char) : Nat :=
  cs.foldl (fun acc c => acc * 10 + (c.toNat - '0'.toNat)) 0

/-- Model of Python `int(s)` for a string: surrounding whitespace is allowed,
then an optional sign and a non-empty run of ASCII digits.  (PEP 515 digit
underscores and non-ASCII digits are not modelled; no claim uses them.) -/
def pyInt (s : String) : Option Int :=
  let cs := stripChars s.toList
  let (sign, body) :=
    match cs with
    | '-' :: rest => ((-1 : Int), rest)
    | '+' :: rest => ((1 : Int), rest)
    | rest => ((1 : Int), rest)
  if body ≠ [] ∧ body.all Char.isDigit then
    some (sign * (digitsToNat body : Int))
  else
    Option.none

/-- Split the fractional digits off a character list: returns the leading
digit run and the remainder. -/
def takeDigits (cs : List Char) : List Char × List Char :=
  (cs.takeWhile Char.isDigit, cs.dropWhile Char.isDigit)

/-- Finish a float literal after the mantissa: an optional exponent marked by
`e`/`E` with an optional sign and non-empty digits, then end of input.  The
value is assembled with integer arithmetic and a single `mkRat`. -/
def pyFloatFinish (neg : Bool) (ip fp : List Char) (rest : List Char) : Option ℚ :=
  let mnum : Int := (digitsToNat (ip ++ fp) : Int)
  let snum : Int := if neg then -mnum else mnum
  let mden : Nat := 10 ^ fp.length
  match rest with
  | [] => some (mkRat snum mden)
  | m :: erest =>
    if m = 'e' ∨ m = 'E' then
      let (eneg, ebody) :=
        match erest with
        | '-' :: r => (true, r)
        | '+' :: r => (false, r)
        | r => (false, r)
      if ebody ≠ [] ∧ ebody.all Char.isDigit then
        let e := digitsToNat ebody
        some (if eneg then mkRat snum (mden * 10 ^ e)
              else mkRat (snum * (10 ^ e : Nat)) mden)
      else
        Option.none
    else
      Option.none

/-- Model of Python `float(s)` for a finite decimal literal: surrounding
whitespace, an optional sign, digits with an optional fractional part (or a
fractional part alone), and an optional exponent.  `inf` / `nan` literals and
PEP 515 underscores are not modelled; no claim uses them. -/
def pyFloat (s : String) : Option ℚ :=
  let cs := stripChars s.toList
  let (neg, body) :=
    match cs with
    | '-' :: rest => (true, rest)
    | '+' :: rest => (false, rest)
    | rest => (false, rest)
  let (ip, rest1) := takeDigits body
  match rest1 with
  | '.' :: rest =>
    let (fp, rest2) := takeDigits rest
    if ip = [] ∧ fp = [] then Option.none else pyFloatFinish neg ip fp rest2
  | _ =>
    if ip = [] then Option.none else pyFloatFinish neg ip [] rest1

/-- `get_float_value` (main.py lines 167-179): falsy input yields `0.0`;
numeric input passes through `float(value)`; a string starting with `"="` is
a spreadsheet formula artifact and yields `0.0`; any other string has its
commas removed and is parsed with `float`, defaulting to `0.0` on failure;
anything else (for example a `datetime`) falls through to `0.0`. -/
def get_float_value (value : Cell) : ℚ :=
  if ¬ value.truthy then 0
  else
    match value with
    | .int n => (n : ℚ)
    | .float q => q
    | .bool b => if b then 1 else 0
    | .str s =>
      if s.toList.take 1 = ['='] then 0
      else
        match pyFloat (String.mk ((s.toList).filter (fun c => c ≠ ','))) with
        | some q => q
        | Option.none => 0
    | _ => 0

/-! ## Date normalization (upload_orders, main.py lines 486-522) -/

/-- A Python `datetime.date` value. -/
structure PyDate where
  year : Nat
  month : Nat
  day : Nat
deriving DecidableEq, Repr

/-- Gregorian leap-year test, as used by `datetime`. -/
def isLeap (y : Nat) : Bool :=
  y % 4 == 0 && (y % 100 != 0 || y % 400 == 0)

/-- Number of days in a month of a given year. -/
def daysInMonth (y m : Nat) : Nat :=
  if m = 2 then (if isLeap y then 29 else 28)
  else if m = 4 ∨ m = 6 ∨ m = 9 ∨ m = 11 then 30
  else 31

/-- Validity of a year/month/day triple for `datetime` (`MINYEAR = 1`,
`MAXYEAR = 9999`). -/
def validYMD (y m d : Nat) : Bool :=
  1 ≤ y && y ≤ 9999 && 1 ≤ m && m ≤ 12 && 1 ≤ d && d ≤ daysInMonth y m

/-- Validity of a `PyDate`. -/
def PyDate.valid (d : PyDate) : Bool :=
  validYMD d.year d.month d.day

/-- `datetime(year, month, day)`: the constructor raises `ValueError` on an
out-of-range argument, modelled as `Option.none`.  Arguments are `Int`
because Python `int()` may produce negative numbers. -/
def mkDate (y m d : Int) : Option PyDate :=
  if 0 ≤ y ∧ 0 ≤ m ∧ 0 ≤ d ∧ validYMD y.toNat m.toNat d.toNat then
    some ⟨y.toNat, m.toNat, d.toNat⟩
  else
    Option.none

/-- Python `s.split(".")` on a character list: split at every dot, keeping
empty pieces (`"a..b"` gives `["a", "", "b"]`). -/
def splitDots : List Char → List String
  | [] => [""]
  | c :: rest =>
    if c = '.' then "" :: splitDots rest
    else
      match splitDots rest with
      | s :: ss => (String.mk (c :: s.toList)) :: ss
      | [] => [String.mk [c]]

/-- The `strptime` month pattern `1[0-2]|0[1-9]|[1-9]`: each alternative
yields the parsed value and the remaining input, in regex alternation
order. -/
def monthCands : List Char → List (Nat × List Char)
  | a :: b :: rest =>
    (if a = '1' ∧ ('0' ≤ b ∧ b ≤ '2') then [(10 + (b.toNat - '0'.toNat), rest)] else []) ++
    (if a = '0' ∧ ('1' ≤ b ∧ b ≤ '9') then [(b.toNat - '0'.toNat, rest)] else []) ++
    (if '1' ≤ a ∧ a ≤ '9' then [(a.toNat - '0'.toNat, b :: rest)] else [])
  | [a] => if '1' ≤ a ∧ a ≤ '9' then [(a.toNat - '0'.toNat, [])] else []
  | [] => []

/-- The `strptime` day pattern `3[01]|[12]\d|0[1-9]|[1-9]`, in regex
alternation order. -/
def dayCands : List Char → List (Nat × List Char)
  | a :: b :: rest =>
    (if a = '3' ∧ ('0' ≤ b ∧ b ≤ '1') then [(30 + (b.toNat - '0'.toNat), rest)] else []) ++
    (if ('1' ≤ a ∧ a ≤ '2') ∧ b.isDigit then
       [((a.toNat - '0'.toNat) * 10 + (b.toNat - '0'.toNat), rest)] else []) ++
    (if a = '0' ∧ ('1' ≤ b ∧ b ≤ '9') then [(b.toNat - '0'.toNat, rest)] else []) ++
    (if '1' ≤ a ∧ a ≤ '9' then [(a.toNat - '0'.toNat, b :: rest)] else [])
  | [a] => if '1' ≤ a ∧ a ≤ '9' then [(a.toNat - '0'.toNat, [])] else []
  | [] => []

/-- Regex phase of `strptime(s, "%Y<sep>%m<sep>%d")`: a four-digit year, the
separator, the month and day patterns with backtracking across alternatives,
and the whole input consumed. -/
def strptimeRegex (cs : List Char) (sep : Char) : Option (Nat × Nat × Nat) :=
  match cs with
  | y1 :: y2 :: y3 :: y4 :: c :: rest =>
    if y1.isDigit ∧ y2.isDigit ∧ y3.isDigit ∧ y4.isDigit ∧ c = sep then
      let y := digitsToNat [y1, y2, y3, y4]
      (monthCands rest).findSome? fun mc =>
        match mc.2 with
        | c2 :: r2 =>
          if c2 = sep then
            (dayCands r2).findSome? fun dc =>
              if dc.2 = [] then some (y, mc.1, dc.1) else Option.none
          else Option.none
        | [] => Option.none
    else Option.none
  | _ => Option.none

/-- `datetime.strptime(s, fmt).date()` for `fmt` of shape `%Y<sep>%m<sep>%d`:
the regex phase picks the first full match, then the `datetime` constructor
validates the triple (a `ValueError` makes the whole format fail). -/
def strptimeYMD (cs : List Char) (sep : Char) : Option PyDate :=
  match strptimeRegex cs sep with
  | some (y, m, d) => mkDate y m d
  | Option.none => Option.none

/-- The dot-split branch of the date chain (lines 492-502): if `str(cell)`
contains a dot, strip the text, split it at dots, and when there are exactly
three pieces read them with `int()` and pass them to `datetime()`.  Any
failure leaves the date undecided (`Option.none`). -/
def dateFromSplit (ds : List Char) : Option PyDate :=
  if ds.any (fun c => c = '.') then
    match splitDots (stripChars ds) with
    | [p1, p2, p3] =>
      match pyInt p1, pyInt p2, pyInt p3 with
      | some y, some m, some d => mkDate y m d
      | _, _, _ => Option.none
    | _ => Option.none
  else Option.none

/-- The text part of the date chain: the dot-split branch, then the formats
`%Y.%m.%d`, `%Y-%m-%d`, `%Y/%m/%d` on the stripped text, then the current
date. -/
def normalizeFromText (ds : List Char) (today : PyDate) : PyDate :=
  match dateFromSplit ds with
  | some d => d
  | Option.none =>
    match strptimeYMD (stripChars ds) '.' with
    | some d => d
    | Option.none =>
      match strptimeYMD (stripChars ds) '-' with
      | some d => d
      | Option.none =>
        match strptimeYMD (stripChars ds) '/' with
        | some d => d
        | Option.none => today

/-- Date normalization of `upload_orders` (main.py lines 486-522):
(a) a `datetime` cell is used directly (`row[0].date()`); otherwise the
ordered text fallbacks of `normalizeFromText` run on `str(row[0])`, ending
in the current date.  Any exception along the way also results in the
current date, so the normalization never fails. -/
def normalizeOrderDate (cell : Cell) (today : PyDate) : PyDate :=
  match cell with
  | .date y m d => ⟨y, m, d⟩
  | _ => normalizeFromText (Cell.pyStr cell).toList today

/-- Well-formedness of a cell: a `datetime` cell can only hold a triple the
`datetime` constructor accepted. -/
def Cell.wf : Cell → Bool
  | .date y m d => validYMD y m d
  | _ => true

/-! ## Data model (models.py) and the committed store

Reference rows are stored with their `name` as an SQLite TEXT-affinity value:
the `name` columns are `String`, so SQLite converts any numeric parameter to
its text before storing or comparing, and `NULL` compares equal to nothing.
-/

/-- A value stored in (or compared against) a TEXT-affinity SQLite column. -/
inductive SV where
  | null
  | text (s : String)
deriving DecidableEq, Repr

/-- TEXT-affinity conversion of a Python value bound as an SQL parameter,
as applied to the cell values the ingestion routine passes to queries and
constructors. -/
def Cell.toSV : Cell → SV
  | .none => .null
  | .str s => .text s
  | .int n => .text (toString n)
  | .float q => .text (floatRepr q)
  | .bool b => .text (if b then "1" else "0")
  | .date y m d => .text (pad4 y ++ "-" ++ pad2 m ++ "-" ++ pad2 d ++ " 00:00:00")

/-- SQLAlchemy `column == value`: for a `None` parameter the criterion
compiles to `column IS NULL`; otherwise to SQL equality, where `NULL`
matches nothing. -/
def svFilterEq (stored : SV) (param : SV) : Bool :=
  match param, stored with
  | .null, .null => true
  | .null, .text _ => false
  | .text t, .text s => s = t
  | .text _, .null => false

/-- Conversion of an optional request string (Pydantic `Optional[str]`) to a
stored column value. -/
def optToSV : Option String → SV
  | some s => .text s
  | Option.none => .null

/-- A row of the `suppliers` table. -/
structure SupplierRow where
  id : Nat
  name : SV
  contact : SV
  address : SV
  is_deleted : Bool
deriving DecidableEq, Repr

/-- A row of the `items` table. -/
structure ItemRow where
  id : Nat
  name : SV
  description : SV
  price : Option ℚ
  vat_excluded : Bool
  is_deleted : Bool
deriving DecidableEq, Repr

/-- A row of the `units` table. -/
structure UnitRow where
  id : Nat
  name : SV
  description : SV
  is_deleted : Bool
deriving DecidableEq, Repr

/-- A row of the `orders` table.  The columns are the ones `models.py`
declares: in particular `payment_cycle` and `payment_method`, not the
`payment_schedule` / `purchase_cycle` names the handlers in `main.py` use. -/
structure OrderRow where
  id : Nat
  supplier_id : Nat
  item_id : Nat
  unit_id : Nat
  quantity : ℚ
  price : ℚ
  total : ℚ
  payment_cycle : SV
  payment_method : SV
  client : SV
  notes : SV
  date : SV
  is_deleted : Bool
  approval_status : Option String
  approved_by : Option String
  approved_at : Option String
  rejection_reason : Option String
deriving DecidableEq, Repr

/-- The relational store (database.py): four tables. -/
structure DB where
  suppliers : List SupplierRow
  items : List ItemRow
  units : List UnitRow
  orders : List OrderRow
deriving DecidableEq, Repr

/-- The rowid SQLite assigns to an inserted row with an
`INTEGER PRIMARY KEY`: one more than the largest existing id. -/
def nextId (ids : List Nat) : Nat :=
  ids.foldr max 0 + 1

/-- An HTTP error response: status code and detail string. -/
structure HTTPError where
  status : Nat
  detail : String
deriving DecidableEq, Repr

/-! ## create_supplier (main.py lines 185-218) -/

/-- `create_supplier`: the duplicate check filters on
`Supplier.name == supplier.name` and on `Supplier.is_deleted is False`.
The second criterion applies Python `is` to a `Column` object, which is the
constant `False`, so SQLAlchemy coerces it to the SQL literal false and the
query can never return a row.  The insert then runs against the
`unique=True` constraint on `suppliers.name`, which knows nothing of
`is_deleted`; the handler maps a "UNIQUE constraint failed" error to
`400 already_exists` and rolls back.  On success the committed store gains
the new row and the handler returns it. -/
def create_supplier (db : DB) (name : String) (contact address : Option String) :
    Except HTTPError SupplierRow × DB :=
  let existing := db.suppliers.find? fun s => svFilterEq s.name (.text name) && false
  if existing.isSome then
    (.error ⟨400, "already_exists"⟩, db)
  else if db.suppliers.any fun s => s.name == SV.text name then
    (.error ⟨400, "already_exists"⟩, db)
  else
    let row : SupplierRow :=
      ⟨nextId (db.suppliers.map SupplierRow.id), .text name,
        optToSV contact, optToSV address, false⟩
    (.ok row, { db with suppliers := db.suppliers ++ [row] })

/-! ## Spreadsheet ingestion (upload_orders, main.py lines 469-578)

The model starts after `load_workbook`: the input is the list of data rows
(`iter_rows(min_row=2)` already skips the header row), each row being the
eleven positional cells of the sheet.  `db.flush()` is modelled by threading
the in-transaction store; the single `db.commit()` sits at the end of the
handler, and the `except` block rolls back, returning the original committed
store. -/

/-- One data row of the uploaded sheet, by positional column. -/
structure Row where
  date : Cell
  supplierName : Cell
  itemName : Cell
  itemPrice : Cell
  unitName : Cell
  quantity : Cell
  total : Cell
  paymentSchedule : Cell
  purchaseCycle : Cell
  client : Cell
  notes : Cell
deriving DecidableEq, Repr

/-- Python `any(row)` over the eleven cells: the row is skipped when every
cell is falsy. -/
def rowAny (r : Row) : Bool :=
  r.date.truthy || r.supplierName.truthy || r.itemName.truthy ||
  r.itemPrice.truthy || r.unitName.truthy || r.quantity.truthy ||
  r.total.truthy || r.paymentSchedule.truthy || r.purchaseCycle.truthy ||
  r.client.truthy || r.notes.truthy

/-- Substring containment on character lists (Python `needle in haystack`). -/
def containsSub (needle haystack : List Char) : Bool :=
  match haystack with
  | [] => needle.isEmpty
  | _ :: rest => needle.isPrefixOf haystack || containsSub needle rest

/-- Supplier reconciliation of the ingestion routine (lines 524-531): find
the first supplier whose name matches the cell — the filter has no
`is_deleted` condition — or create `Supplier(name=row[1], contact=row[9])`
and flush it. -/
def reconcileSupplier (db : DB) (nameC contactC : Cell) : SupplierRow × DB :=
  match db.suppliers.find? (fun s => svFilterEq s.name nameC.toSV) with
  | some s => (s, db)
  | Option.none =>
    let s : SupplierRow :=
      ⟨nextId (db.suppliers.map SupplierRow.id), nameC.toSV, contactC.toSV, .null, false⟩
    (s, { db with suppliers := db.suppliers ++ [s] })

/-- Item reconciliation (lines 533-545): find the first item whose name
matches the cell — again with no `is_deleted` condition — or create one with
`price=get_float_value(row[3])`, `vat_excluded` set when the notes text
contains the marker, and a description mirroring the marker. -/
def reconcileItem (db : DB) (nameC priceC notesC : Cell) : ItemRow × DB :=
  match db.items.find? (fun i => svFilterEq i.name nameC.toSV) with
  | some i => (i, db)
  | Option.none =>
    let notes := cellOrDefault notesC ""
    let vat := containsSub "부가세별도".toList notes.toList
    let i : ItemRow :=
      ⟨nextId (db.items.map ItemRow.id), nameC.toSV,
        (if vat then .text "부가세별도" else .null),
        some (get_float_value priceC), vat, false⟩
    (i, { db with items := db.items ++ [i] })

/-- Unit reconciliation (lines 547-553): the unit name defaults to `"개"`
when the cell is falsy, then find the first unit with that name or create
one.  The `description` column takes its server default `""` on insert. -/
def reconcileUnit (db : DB) (unitC : Cell) : UnitRow × DB :=
  match db.units.find? (fun u => svFilterEq u.name (.text (cellOrDefault unitC "개"))) with
  | some u => (u, db)
  | Option.none =>
    let u : UnitRow :=
      ⟨nextId (db.units.map UnitRow.id), .text (cellOrDefault unitC "개"), .text "", false⟩
    (u, { db with units := db.units ++ [u] })

/-- Processing of one non-empty data row (lines 486-569): normalize the
date, reconcile the three reference rows (flushing any created row into the
in-transaction store), then build the order with
`models.Order(date=..., supplier_id=..., ..., payment_schedule=...,
purchase_cycle=..., ...)`.  The `Order` model declares `payment_cycle` and
`payment_method`, not `payment_schedule` or `purchase_cycle`, so SQLAlchemy's
declarative constructor raises `TypeError` here.  The result pairs the
in-transaction store at the moment of the outcome with the outcome. -/
def processRow (db : DB) (r : Row) (today : PyDate) : DB × Except String OrderRow :=
  let _order_date := normalizeOrderDate r.date today
  let (_supplier, db1) := reconcileSupplier db r.supplierName r.client
  let (_item, db2) := reconcileItem db1 r.itemName r.itemPrice r.notes
  let (_unit, db3) := reconcileUnit db2 r.unitName
  (db3, .error "'payment_schedule' is an invalid keyword argument for Order")

/-- The row loop of `upload_orders` (lines 482-569): skip rows with no
truthy cell, process the others in order, and stop at the first raised
exception, keeping the in-transaction store reached so far. -/
def processRows (db : DB) (rows : List Row) (today : PyDate) :
    DB × Except String (List OrderRow) :=
  match rows with
  | [] => (db, .ok [])
  | r :: rest =>
    if ¬ rowAny r then processRows db rest today
    else
      match processRow db r today with
      | (db1, .error e) => (db1, .error e)
      | (db1, .ok o) =>
        match processRows db1 rest today with
        | (db2, .ok os) => (db2, .ok (o :: os))
        | (db2, .error e) => (db2, .error e)

/-- Insert the accumulated orders (`db.add_all(orders)` before the final
commit), assigning fresh ids. -/
def insertOrders (db : DB) : List OrderRow → DB
  | [] => db
  | o :: os =>
    insertOrders
      { db with orders := db.orders ++ [{ o with id := nextId (db.orders.map OrderRow.id) }] }
      os

/-- `upload_orders` (main.py lines 469-578), starting after workbook
parsing.  On success the accumulated orders are batch-inserted and the
one commit of the call publishes the in-transaction store; the response
reports the number of accumulated orders.  On any exception the handler
rolls back, so the committed store is the original one, and the caller gets
a 500 carrying the error text. -/
def uploadOrders (db : DB) (rows : List Row) (today : PyDate) :
    Except HTTPError String × DB :=
  match processRows db rows today with
  | (st, .ok orders) =>
    (.ok ("Successfully uploaded " ++ toString orders.length ++ " orders"),
      insertOrders st orders)
  | (_, .error e) => (.error ⟨500, e⟩, db)

/-! ## read_orders (main.py lines 350-376) -/

/-- The id/name view of a reference entity carried in an order of the list
response. -/
structure RefOut where
  id : Nat
  name : SV
deriving DecidableEq, Repr

/-- The placeholder entity substituted for a missing or soft-deleted
relation: `Supplier(id=0, name="삭제됨")` (and likewise for items and
units). -/
def placeholderRef : RefOut := ⟨0, .text "삭제됨"⟩

/-- One entry of the order-list response: the order row together with the
resolved (possibly placeholder) reference entities. -/
structure OrderOut where
  order : OrderRow
  supplier : RefOut
  item : RefOut
  unit : RefOut
deriving DecidableEq, Repr

/-- Resolution of `order.supplier` after the joined load, then the
substitution `if not order.supplier or order.supplier.is_deleted`. -/
def resolveSupplier (db : DB) (sid : Nat) : RefOut :=
  match db.suppliers.find? (fun s => s.id == sid) with
  | some s => if s.is_deleted then placeholderRef else ⟨s.id, s.name⟩
  | Option.none => placeholderRef

/-- Resolution of `order.item` with the same substitution. -/
def resolveItem (db : DB) (iid : Nat) : RefOut :=
  match db.items.find? (fun i => i.id == iid) with
  | some i => if i.is_deleted then placeholderRef else ⟨i.id, i.name⟩
  | Option.none => placeholderRef

/-- Resolution of `order.unit` with the same substitution. -/
def resolveUnit (db : DB) (uid : Nat) : RefOut :=
  match db.units.find? (fun u => u.id == uid) with
  | some u => if u.is_deleted then placeholderRef else ⟨u.id, u.name⟩
  | Option.none => placeholderRef

/-- Response shaping for one order. -/
def shapeOrder (db : DB) (o : OrderRow) : OrderOut :=
  ⟨o, resolveSupplier db o.supplier_id, resolveItem db o.item_id,
    resolveUnit db o.unit_id⟩

/-- `read_orders`: queries the non-soft-deleted orders, replaces a missing
or soft-deleted relation by the placeholder on the loaded objects, and
returns them.  The handler contains no `commit`; the session opened by
`get_db` is closed at the end of the request, which discards the in-session
relation assignments, so the committed store after the request is the input
store. -/
def read_orders (db : DB) : List OrderOut × DB :=
  ((db.orders.filter (fun o => !o.is_deleted)).map (shapeOrder db), db)

/-! ## approve_order and reject_order (main.py lines 652-684) -/

/-- `approve_order`: the shared-secret check comes first and returns
`401 Invalid password` without touching the store; then the order lookup may
fail with `404 Order not found`; otherwise the order's approval fields are
set and committed.  `now` is the ambient
`datetime.now().strftime("%y-%m-%d %H:%M")` string. -/
def approve_order (db : DB) (orderId : Nat) (password : String) (now : String) :
    Except HTTPError String × DB :=
  if password ≠ "admin" then
    (.error ⟨401, "Invalid password"⟩, db)
  else
    match db.orders.find? (fun o => o.id == orderId) with
    | Option.none => (.error ⟨404, "Order not found"⟩, db)
    | some o =>
      let o' := { o with
        approval_status := some "approved"
        approved_by := some "이지은"
        approved_at := some now }
      (.ok "Order approved successfully",
        { db with orders := db.orders.map fun p => if p.id == orderId then o' else p })

/-- `reject_order`: the order lookup may fail with `404 Order not found`;
otherwise the status, the caller-supplied reason and the timestamp are set
and committed.  `approved_by` is not touched. -/
def reject_order (db : DB) (orderId : Nat) (reason : String) (now : String) :
    Except HTTPError String × DB :=
  match db.orders.find? (fun o => o.id == orderId) with
  | Option.none => (.error ⟨404, "Order not found"⟩, db)
  | some o =>
    let o' := { o with
      approval_status := some "rejected"
      rejection_reason := some reason
      approved_at := some now }
    (.ok "Order rejected successfully",
      { db with orders := db.orders.map fun p => if p.id == orderId then o' else p })

/-! ## Concrete fixtures used to evaluate the handlers -/

/-- The empty store. -/
def emptyDB : DB := ⟨[], [], [], []⟩

/-- A store whose only supplier row named "S" is soft-deleted. -/
def dbSoftDeletedS : DB :=
  ⟨[⟨1, .text "S", .null, .null, true⟩], [], [], []⟩

/-- A store whose only supplier row named "A" is soft-deleted. -/
def dbDeletedA : DB :=
  ⟨[⟨1, .text "A", .null, .null, true⟩], [], [], []⟩

/-- A store with a non-deleted supplier row named "A". -/
def dbActiveA : DB :=
  ⟨[⟨1, .text "A", .null, .null, false⟩], [], [], []⟩

/-- A fully populated, clearly valid data row of an uploaded sheet. -/
def demoRow : Row :=
  ⟨.str "2024.03.05", .str "S", .str "I", .int 1000, .str "개", .int 2,
    .int 2000, .str "monthly", .str "daily", .str "010-0000-0000", .str "비고"⟩

/-- A store already holding the reference rows `demoRow` mentions, so that
processing it creates no reference row. -/
def dbRefsPresent : DB :=
  ⟨[⟨1, .text "S", .null, .null, false⟩],
    [⟨1, .text "I", .null, some 1000, false, false⟩],
    [⟨1, .text "개", .text "", false⟩], []⟩

/-- An order row used by the approve/reject and list fixtures. -/
def demoOrder : OrderRow :=
  ⟨1, 1, 1, 1, 2, 1000, 2000, .text "monthly", .text "계좌이체",
    .text "010-0000-0000", .null, .text "2024-03-05", false,
    Option.none, Option.none, Option.none, Option.none⟩

/-- A store with one non-deleted order. -/
def dbOneOrder : DB :=
  ⟨[⟨1, .text "S", .null, .null, false⟩],
    [⟨1, .text "I", .null, some 1000, false, false⟩],
    [⟨1, .text "개", .text "", false⟩], [demoOrder]⟩

/-- A store for the list fixture: the order's supplier row is absent
(hard-deleted), its unit row is soft-deleted, and its item row is live. -/
def dbReadDemo : DB :=
  ⟨[], [⟨1, .text "I", .null, some 1000, false, false⟩],
    [⟨1, .text "개", .text "", true⟩], [demoOrder]⟩

/-! ## Helper lemmas -/

/-- A date accepted by the `datetime` constructor is valid. -/
theorem mkDate_valid {y m d : Int} {dt : PyDate} (h : mkDate y m d = some dt) :
    dt.valid = true := by
  unfold mkDate at h
  split at h
  · rename_i hc
    cases h
    exact hc.2.2.2
  · exact absurd h (by simp)

/-- A date produced by `strptimeYMD` is valid. -/
theorem strptimeYMD_valid {cs : List Char} {sep : Char} {dt : PyDate}
    (h : strptimeYMD cs sep = some dt) : dt.valid = true := by
  unfold strptimeYMD at h
  rcases hr : strptimeRegex cs sep with _ | ymd
  · rw [hr] at h; exact absurd h (by simp)
  · rw [hr] at h; exact mkDate_valid h

/-- A date produced by the dot-split branch is valid. -/
theorem dateFromSplit_valid {ds : List Char} {dt : PyDate}
    (h : dateFromSplit ds = some dt) : dt.valid = true := by
  unfold dateFromSplit at h
  split at h
  · split at h
    · split at h
      · exact mkDate_valid h
      · exact absurd h (by simp)
    · exact absurd h (by simp)
  · exact absurd h (by simp)

/-- The text fallback chain only ever produces a valid date or the current
date. -/
theorem normalizeFromText_valid (ds : List Char) (today : PyDate)
    (htoday : today.valid = true) : (normalizeFromText ds today).valid = true := by
  unfold normalizeFromText
  rcases h0 : dateFromSplit ds with _ | d0
  · rcases h1 : strptimeYMD (stripChars ds) '.' with _ | d1
    · rcases h2 : strptimeYMD (stripChars ds) '-' with _ | d2
      · rcases h3 : strptimeYMD (stripChars ds) '/' with _ | d3
        · simp [h0, h1, h2, h3, htoday]
        · simpa [h0, h1, h2, h3] using strptimeYMD_valid h3
      · simpa [h0, h1, h2] using strptimeYMD_valid h2
    · simpa [h0, h1] using strptimeYMD_valid h1
  · simpa [h0] using dateFromSplit_valid h0

/-- `find?` after the update `map (fun p => if p.id == i then o' else p)`
returns the replacement whenever `find?` found a row before and the
replacement keeps the id. -/
theorem find?_map_replace (l : List OrderRow) (i : Nat) (o o' : OrderRow)
    (hid : (o'.id == i) = true) (h : l.find? (fun p => p.id == i) = some o) :
    (l.map fun p => if p.id == i then o' else p).find? (fun p => p.id == i)
      = some o' := by
  induction l with
  | nil => simp at h
  | cons a t ih =>
    cases hab : a.id == i with
    | false =>
      have hmap : (a :: t).map (fun p => if p.id == i then o' else p)
          = a :: t.map (fun p => if p.id == i then o' else p) := by
        rw [List.map_cons]
        congr 1
        exact if_neg (by simp [hab])
      unfold List.find? at h
      rw [hab] at h
      rw [hmap]
      unfold List.find?
      rw [hab]
      exact ih h
    | true =>
      have hmap : (a :: t).map (fun p => if p.id == i then o' else p)
          = o' :: t.map (fun p => if p.id == i then o' else p) := by
        rw [List.map_cons]
        congr 1
        exact if_pos hab
      rw [hmap]
      unfold List.find?
      rw [hid]

/-! ## Claim theorems -/

/-- C3: date normalization in ingestion follows the ordered fallback chain
and never fails: for every well-formed input cell and valid current date it
produces a valid date, substituting the current date when all parses fail;
"2024.03.05" and "2024-03-05" both yield March 5 2024 and "not-a-date"
yields the current date. -/
theorem normalize_order_date_chain_total :
    (∀ (c : Cell) (today : PyDate), Cell.wf c = true → today.valid = true →
      (normalizeOrderDate c today).valid = true)
    ∧ normalizeOrderDate (.str "2024.03.05") ⟨2025, 6, 15⟩ = ⟨2024, 3, 5⟩
    ∧ normalizeOrderDate (.str "2024-03-05") ⟨2025, 6, 15⟩ = ⟨2024, 3, 5⟩
    ∧ normalizeOrderDate (.str "not-a-date") ⟨2025, 6, 15⟩ = ⟨2025, 6, 15⟩ := by
  refine ⟨?_, by decide, by decide, by decide⟩
  intro c today hwf htoday
  cases c with
  | date y m d => simpa [normalizeOrderDate, PyDate.valid, Cell.wf] using hwf
  | none => exact normalizeFromText_valid _ _ htoday
  | str s => exact normalizeFromText_valid _ _ htoday
  | int n => exact normalizeFromText_valid _ _ htoday
  | float q => exact normalizeFromText_valid _ _ htoday
  | bool b => exact normalizeFromText_valid _ _ htoday

/-- Witness for C3: the totality part applied to a concrete unparsable cell
and a concrete current date. -/
theorem normalize_order_date_chain_total_witness :
    (normalizeOrderDate (.str "hello world") ⟨2025, 6, 15⟩).valid = true :=
  normalize_order_date_chain_total.1 (.str "hello world") ⟨2025, 6, 15⟩
    (by decide) (by decide)

/-- C4: numeric normalization is total and never raises: falsy input (empty
or missing) yields 0.0; numeric input passes through as a float; a string
starting with "=" yields 0.0; any other string has its commas stripped and
is parsed as a float, yielding 0.0 when parsing fails. -/
theorem get_float_value_total_spec :
    get_float_value Cell.none = 0
    ∧ get_float_value (.str "") = 0
    ∧ (∀ n : Int, get_float_value (.int n) = (n : ℚ))
    ∧ (∀ q : ℚ, get_float_value (.float q) = q)
    ∧ (∀ s : String, s.toList.take 1 = ['='] → get_float_value (.str s) = 0)
    ∧ (∀ s : String, ¬ s.toList.take 1 = ['='] → ¬ s = "" →
        get_float_value (.str s)
          = (pyFloat (String.mk (s.toList.filter (fun c => c ≠ ',')))).getD 0)
    ∧ get_float_value (.str "1,234") = 1234
    ∧ get_float_value (.str "=SUM(A1:A2)") = 0
    ∧ get_float_value (.int 42) = 42
    ∧ get_float_value (.str "not a number") = 0 := by
  refine ⟨by decide, by decide, ?_, ?_, ?_, ?_, by decide, by decide, by decide,
    by decide⟩
  · intro n
    by_cases hn : n = 0
    · subst hn; simp [get_float_value, Cell.truthy]
    · simp [get_float_value, Cell.truthy, hn]
  · intro q
    by_cases hq : q = 0
    · subst hq; simp [get_float_value, Cell.truthy]
    · simp [get_float_value, Cell.truthy, hq]
  · intro s hpre
    simp only [String.toList] at hpre
    by_cases hs : s = ""
    · simp [get_float_value, Cell.truthy, hs]
    · simp [get_float_value, Cell.truthy, hs, hpre]
  · intro s hpre hne
    simp only [String.toList] at hpre
    simp only [get_float_value, Cell.truthy, String.toList]
    rw [if_neg (by simp [hne]), if_neg hpre]
    split <;> simp_all

/-- Witness for C4: the quantified clauses applied at concrete inputs. -/
theorem get_float_value_total_spec_witness :
    get_float_value (.int 7) = 7
    ∧ get_float_value (.float 3) = 3
    ∧ get_float_value (.str "=A1") = 0
    ∧ get_float_value (.str "2,5") = 25 :=
  ⟨get_float_value_total_spec.2.2.1 7,
   get_float_value_total_spec.2.2.2.1 3,
   get_float_value_total_spec.2.2.2.2.1 "=A1" (by decide),
   (get_float_value_total_spec.2.2.2.2.2.1 "2,5" (by decide) (by decide)).trans
     (by decide)⟩

/-- C1 counterexample: in a store whose only supplier row named "S" is
soft-deleted — so no non-deleted row with that name exists — ingestion
reconciliation of a row naming "S" creates no supplier row at all: it
matches and reuses the soft-deleted row, contradicting the claim that a new
reference row is created whenever no non-deleted row matches. -/
theorem reconcile_reuses_soft_deleted_row :
    (reconcileSupplier dbSoftDeletedS (.str "S") Cell.none).2 = dbSoftDeletedS
    ∧ (reconcileSupplier dbSoftDeletedS (.str "S") Cell.none).1
        = ⟨1, .text "S", .null, .null, true⟩
    ∧ dbSoftDeletedS.suppliers.all (fun s => s.is_deleted) = true := by
  decide

/-- C1 amended: during ingestion, the reconciliation of supplier, item and
unit looks up an existing row by exact name match alone — regardless of the
soft-delete flag — and creates a new reference row only when no row with
that name exists at all. -/
theorem reconcile_by_exact_name_ignoring_soft_delete :
    (∀ (db : DB) (nameC contactC : Cell) (s : SupplierRow),
        db.suppliers.find? (fun t => svFilterEq t.name nameC.toSV) = some s →
        reconcileSupplier db nameC contactC = (s, db))
    ∧ (∀ (db : DB) (nameC contactC : Cell),
        db.suppliers.find? (fun t => svFilterEq t.name nameC.toSV) = Option.none →
        (reconcileSupplier db nameC contactC).2.suppliers
          = db.suppliers ++ [(reconcileSupplier db nameC contactC).1]
        ∧ (reconcileSupplier db nameC contactC).1.name = nameC.toSV)
    ∧ (∀ (db : DB) (nameC priceC notesC : Cell) (i : ItemRow),
        db.items.find? (fun t => svFilterEq t.name nameC.toSV) = some i →
        reconcileItem db nameC priceC notesC = (i, db))
    ∧ (∀ (db : DB) (nameC priceC notesC : Cell),
        db.items.find? (fun t => svFilterEq t.name nameC.toSV) = Option.none →
        (reconcileItem db nameC priceC notesC).2.items
          = db.items ++ [(reconcileItem db nameC priceC notesC).1]
        ∧ (reconcileItem db nameC priceC notesC).1.name = nameC.toSV)
    ∧ (∀ (db : DB) (unitC : Cell) (u : UnitRow),
        db.units.find?
            (fun t => svFilterEq t.name (.text (cellOrDefault unitC "개"))) = some u →
        reconcileUnit db unitC = (u, db))
    ∧ (∀ (db : DB) (unitC : Cell),
        db.units.find?
            (fun t => svFilterEq t.name (.text (cellOrDefault unitC "개")))
          = Option.none →
        (reconcileUnit db unitC).2.units
          = db.units ++ [(reconcileUnit db unitC).1]
        ∧ (reconcileUnit db unitC).1.name = .text (cellOrDefault unitC "개")) := by
  refine ⟨?_, ?_, ?_, ?_, ?_, ?_⟩
  · intro db nameC contactC s h
    unfold reconcileSupplier
    rw [h]
  · intro db nameC contactC h
    unfold reconcileSupplier
    rw [h]
    exact ⟨rfl, rfl⟩
  · intro db nameC priceC notesC i h
    unfold reconcileItem
    rw [h]
  · intro db nameC priceC notesC h
    unfold reconcileItem
    rw [h]
    exact ⟨rfl, rfl⟩
  · intro db unitC u h
    unfold reconcileUnit
    rw [h]
  · intro db unitC h
    unfold reconcileUnit
    rw [h]
    exact ⟨rfl, rfl⟩

/-- Witness for C1: the amended behavior at concrete stores — a name match
on a soft-deleted row reuses it, and a miss appends a freshly created row. -/
theorem reconcile_by_exact_name_ignoring_soft_delete_witness :
    reconcileSupplier dbSoftDeletedS (.str "S") (.str "c")
        = (⟨1, .text "S", .null, .null, true⟩, dbSoftDeletedS)
    ∧ (reconcileSupplier emptyDB (.str "S") (.str "c")).2.suppliers
        = [] ++ [(reconcileSupplier emptyDB (.str "S") (.str "c")).1]
    ∧ reconcileItem dbRefsPresent (.str "I") (.int 1000) (.str "비고")
        = (⟨1, .text "I", .null, some 1000, false, false⟩, dbRefsPresent)
    ∧ (reconcileItem emptyDB (.str "I") (.int 1000) (.str "비고")).2.items
        = [] ++ [(reconcileItem emptyDB (.str "I") (.int 1000) (.str "비고")).1]
    ∧ reconcileUnit dbRefsPresent (.str "개")
        = (⟨1, .text "개", .text "", false⟩, dbRefsPresent)
    ∧ (reconcileUnit emptyDB Cell.none).2.units
        = [] ++ [(reconcileUnit emptyDB Cell.none).1] :=
  ⟨reconcile_by_exact_name_ignoring_soft_delete.1 dbSoftDeletedS (.str "S")
      (.str "c") _ (by decide),
   (reconcile_by_exact_name_ignoring_soft_delete.2.1 emptyDB (.str "S")
      (.str "c") (by decide)).1,
   reconcile_by_exact_name_ignoring_soft_delete.2.2.1 dbRefsPresent (.str "I")
      (.int 1000) (.str "비고") _ (by decide),
   (reconcile_by_exact_name_ignoring_soft_delete.2.2.2.1 emptyDB (.str "I")
      (.int 1000) (.str "비고") (by decide)).1,
   reconcile_by_exact_name_ignoring_soft_delete.2.2.2.2.1 dbRefsPresent
      (.str "개") _ (by decide),
   (reconcile_by_exact_name_ignoring_soft_delete.2.2.2.2.2 emptyDB Cell.none
      (by decide)).1⟩

/-- C2: creating a supplier whose name equals an existing non-deleted
supplier does fail with 400 "already_exists" as the claim states, but —
against the claim — creating one whose name matches only a soft-deleted
supplier fails the same way, because the in-code non-deleted check is inert
(`is False` on a Column is the constant `False`) and the name unique
constraint knows nothing of the soft-delete flag; creation succeeds only
when no row with that name exists at all. -/
theorem create_supplier_conflict_ignores_soft_delete :
    create_supplier dbActiveA "A" Option.none Option.none
        = (.error ⟨400, "already_exists"⟩, dbActiveA)
    ∧ create_supplier dbDeletedA "A" Option.none Option.none
        = (.error ⟨400, "already_exists"⟩, dbDeletedA)
    ∧ dbDeletedA.suppliers.all (fun s => s.is_deleted) = true
    ∧ create_supplier emptyDB "A" Option.none Option.none
        = (.ok ⟨1, .text "A", .null, .null, false⟩,
            ⟨[⟨1, .text "A", .null, .null, false⟩], [], [], []⟩) := by
  decide

/-- C5: spreadsheet ingestion is atomic.  The only commit of `upload_orders`
is the one after the batch insert; reference rows created by reconciliation
are merely flushed into the in-transaction store, so when any failure makes
the handler roll back, the committed store is exactly the one from before
the call — no partial import and no stray reference row survives. -/
theorem upload_orders_rolls_back_on_error :
    ∀ (db : DB) (rows : List Row) (today : PyDate) (e : HTTPError),
      (uploadOrders db rows today).1 = .error e →
      (uploadOrders db rows today).2 = db := by
  intro db rows today e h
  unfold uploadOrders at h ⊢
  rcases hp : processRows db rows today with ⟨st, res⟩
  rw [hp] at h
  cases res with
  | ok orders => exact Except.noConfusion h
  | error msg => rfl

/-- Witness for C5: a one-row upload into the empty store fails (the order
constructor raises), the committed store stays empty, and yet the
in-transaction store had already received the three reference rows created
by reconciliation — the rollback really discards inline creations. -/
theorem upload_orders_rolls_back_on_error_witness :
    (uploadOrders emptyDB [demoRow] ⟨2025, 1, 1⟩).2 = emptyDB
    ∧ (processRows emptyDB [demoRow] ⟨2025, 1, 1⟩).1 ≠ emptyDB :=
  ⟨upload_orders_rolls_back_on_error emptyDB [demoRow] ⟨2025, 1, 1⟩
      ⟨500, "'payment_schedule' is an invalid keyword argument for Order"⟩
      (by decide),
   by decide⟩

/-- C6: uploading a sheet with one fully valid data row creates no order at
all: after the three reference lookups succeed, the handler calls
`models.Order(..., payment_schedule=..., purchase_cycle=..., ...)`, but the
`Order` model of models.py declares `payment_cycle` and `payment_method`
instead, so SQLAlchemy's declarative constructor raises `TypeError`, the
transaction rolls back and the caller receives a 500 — never the claimed
per-row order count. -/
theorem upload_valid_row_raises_type_error :
    uploadOrders dbRefsPresent [demoRow] ⟨2025, 1, 1⟩
        = (.error ⟨500, "'payment_schedule' is an invalid keyword argument for Order"⟩,
            dbRefsPresent)
    ∧ rowAny demoRow = true := by
  decide

/-- C7: approving with a wrong shared secret fails with 401 and leaves the
store — hence the order's approval_status — unchanged; approving a missing
order with the correct secret fails with 404; approving an existing order
with the correct secret succeeds and stamps status "approved", the fixed
approver name and the current timestamp. -/
theorem approve_order_spec :
    ∀ (db : DB) (orderId : Nat) (pw now : String),
      (pw ≠ "admin" →
        approve_order db orderId pw now = (.error ⟨401, "Invalid password"⟩, db))
      ∧ (pw = "admin" →
          db.orders.find? (fun o => o.id == orderId) = Option.none →
          approve_order db orderId pw now = (.error ⟨404, "Order not found"⟩, db))
      ∧ (∀ o : OrderRow, pw = "admin" →
          db.orders.find? (fun o => o.id == orderId) = some o →
          (approve_order db orderId pw now).1 = .ok "Order approved successfully"
          ∧ (approve_order db orderId pw now).2.orders.find? (fun p => p.id == orderId)
              = some { o with approval_status := some "approved",
                              approved_by := some "이지은",
                              approved_at := some now }) := by
  intro db orderId pw now
  refine ⟨?_, ?_, ?_⟩
  · intro hpw
    unfold approve_order
    rw [if_pos hpw]
  · intro hpw hfind
    subst hpw
    unfold approve_order
    rw [if_neg (by simp), hfind]
  · intro o hpw hfind
    subst hpw
    have hido := List.find?_some hfind
    constructor
    · unfold approve_order
      rw [if_neg (by simp), hfind]
    · unfold approve_order
      rw [if_neg (by simp), hfind]
      exact find?_map_replace db.orders orderId o _ hido hfind

/-- Witness for C7: the three branches at a concrete store. -/
theorem approve_order_spec_witness :
    approve_order dbOneOrder 1 "wrong" "25-01-01 10:00"
        = (.error ⟨401, "Invalid password"⟩, dbOneOrder)
    ∧ approve_order dbOneOrder 2 "admin" "25-01-01 10:00"
        = (.error ⟨404, "Order not found"⟩, dbOneOrder)
    ∧ (approve_order dbOneOrder 1 "admin" "25-01-01 10:00").1
        = .ok "Order approved successfully" :=
  ⟨(approve_order_spec dbOneOrder 1 "wrong" "25-01-01 10:00").1 (by decide),
   (approve_order_spec dbOneOrder 2 "admin" "25-01-01 10:00").2.1 rfl (by decide),
   ((approve_order_spec dbOneOrder 1 "admin" "25-01-01 10:00").2.2 demoOrder rfl
      (by decide)).1⟩

/-- C9: in the approve handler the shared-secret check precedes the order
lookup: a wrong secret yields 401 with the store untouched for every store
and every order id — existing or not — and a 404 can only arise when the
secret was correct. -/
theorem approve_secret_precedes_lookup :
    ∀ (db : DB) (orderId : Nat) (pw now : String),
      (pw ≠ "admin" →
        approve_order db orderId pw now = (.error ⟨401, "Invalid password"⟩, db))
      ∧ (∀ e : HTTPError,
          (approve_order db orderId pw now).1 = .error e → e.status = 404 →
          pw = "admin") := by
  intro db orderId pw now
  constructor
  · intro hpw
    unfold approve_order
    rw [if_pos hpw]
  · intro e he h404
    by_cases hpw : pw = "admin"
    · exact hpw
    · unfold approve_order at he
      rw [if_pos hpw] at he
      cases he
      exact absurd h404 (by decide)

/-- Witness for C9: a wrong secret on a store whose order exists gets 401
and no state change. -/
theorem approve_secret_precedes_lookup_witness :
    approve_order dbOneOrder 1 "hacker" "25-01-01 10:00"
        = (.error ⟨401, "Invalid password"⟩, dbOneOrder) :=
  (approve_secret_precedes_lookup dbOneOrder 1 "hacker" "25-01-01 10:00").1
    (by decide)

/-- C10: rejecting an existing order sets approval_status to "rejected",
stores the caller's reason and overwrites approved_at, while approved_by is
left unchanged; approving leaves rejection_reason unchanged; hence an order
approved first and rejected later still carries the stale approver name of
the earlier decision. -/
theorem reject_approve_frame :
    ∀ (db : DB) (orderId : Nat) (reason now now2 : String) (o : OrderRow),
      db.orders.find? (fun p => p.id == orderId) = some o →
      ((reject_order db orderId reason now).2.orders.find? (fun p => p.id == orderId)
          = some { o with approval_status := some "rejected",
                          rejection_reason := some reason,
                          approved_at := some now })
      ∧ ((approve_order db orderId "admin" now).2.orders.find? (fun p => p.id == orderId)
          = some { o with approval_status := some "approved",
                          approved_by := some "이지은",
                          approved_at := some now })
      ∧ ((reject_order (approve_order db orderId "admin" now).2 orderId reason
            now2).2.orders.find? (fun p => p.id == orderId)
          = some { o with approval_status := some "rejected",
                          approved_by := some "이지은",
                          approved_at := some now2,
                          rejection_reason := some reason }) := by
  intro db orderId reason now now2 o hfind
  have hido := List.find?_some hfind
  refine ⟨?_, ?_, ?_⟩
  · unfold reject_order
    rw [hfind]
    exact find?_map_replace db.orders orderId o _ hido hfind
  · unfold approve_order
    rw [if_neg (by simp), hfind]
    exact find?_map_replace db.orders orderId o _ hido hfind
  · have hfindA : (approve_order db orderId "admin" now).2.orders.find?
        (fun p => p.id == orderId)
        = some { o with approval_status := some "approved",
                        approved_by := some "이지은",
                        approved_at := some now } := by
      unfold approve_order
      rw [if_neg (by simp), hfind]
      exact find?_map_replace db.orders orderId o _ hido hfind
    unfold reject_order
    rw [hfindA]
    exact find?_map_replace _ orderId _ _ hido hfindA

/-- Witness for C10: the frame facts at a concrete store, including the
stale approver after approve-then-reject. -/
theorem reject_approve_frame_witness :
    ((reject_order dbOneOrder 1 "too costly" "t1").2.orders.find?
          (fun p => p.id == 1)
        = some { demoOrder with approval_status := some "rejected",
                                rejection_reason := some "too costly",
                                approved_at := some "t1" })
    ∧ ((reject_order (approve_order dbOneOrder 1 "admin" "t1").2 1 "too costly"
          "t2").2.orders.find? (fun p => p.id == 1)
        = some { demoOrder with approval_status := some "rejected",
                                approved_by := some "이지은",
                                approved_at := some "t2",
                                rejection_reason := some "too costly" }) :=
  ⟨(reject_approve_frame dbOneOrder 1 "too costly" "t1" "t2" demoOrder
      (by decide)).1,
   (reject_approve_frame dbOneOrder 1 "too costly" "t1" "t2" demoOrder
      (by decide)).2.2⟩

/-- C8: listing orders returns every non-soft-deleted order; a relation is
replaced by the placeholder `{id: 0, name: "삭제됨"}` exactly on the
handler's missing-or-soft-deleted test, a live relation is passed through,
and the committed store after the request is unchanged — the handler never
commits, so the substitution shapes only the response. -/
theorem read_orders_spec :
    ∀ db : DB,
      (read_orders db).2 = db
      ∧ (read_orders db).1.length
          = (db.orders.filter (fun o => !o.is_deleted)).length
      ∧ (∀ o : OrderRow, o ∈ db.orders → o.is_deleted = false →
          shapeOrder db o ∈ (read_orders db).1)
      ∧ (∀ o : OrderRow,
          db.suppliers.find? (fun s => s.id == o.supplier_id) = Option.none →
          (shapeOrder db o).supplier = placeholderRef)
      ∧ (∀ (o : OrderRow) (s : SupplierRow),
          db.suppliers.find? (fun t => t.id == o.supplier_id) = some s →
          s.is_deleted = true → (shapeOrder db o).supplier = placeholderRef)
      ∧ (∀ (o : OrderRow) (s : SupplierRow),
          db.suppliers.find? (fun t => t.id == o.supplier_id) = some s →
          s.is_deleted = false → (shapeOrder db o).supplier = ⟨s.id, s.name⟩)
      ∧ (∀ o : OrderRow,
          db.items.find? (fun i => i.id == o.item_id) = Option.none →
          (shapeOrder db o).item = placeholderRef)
      ∧ (∀ (o : OrderRow) (i : ItemRow),
          db.items.find? (fun t => t.id == o.item_id) = some i →
          i.is_deleted = true → (shapeOrder db o).item = placeholderRef)
      ∧ (∀ (o : OrderRow) (i : ItemRow),
          db.items.find? (fun t => t.id == o.item_id) = some i →
          i.is_deleted = false → (shapeOrder db o).item = ⟨i.id, i.name⟩)
      ∧ (∀ o : OrderRow,
          db.units.find? (fun u => u.id == o.unit_id) = Option.none →
          (shapeOrder db o).unit = placeholderRef)
      ∧ (∀ (o : OrderRow) (u : UnitRow),
          db.units.find? (fun t => t.id == o.unit_id) = some u →
          u.is_deleted = true → (shapeOrder db o).unit = placeholderRef)
      ∧ (∀ (o : OrderRow) (u : UnitRow),
          db.units.find? (fun t => t.id == o.unit_id) = some u →
          u.is_deleted = false → (shapeOrder db o).unit = ⟨u.id, u.name⟩) := by
  intro db
  refine ⟨rfl, ?_, ?_, ?_, ?_, ?_, ?_, ?_, ?_, ?_, ?_, ?_⟩
  · exact List.length_map _ _
  · intro o ho hdel
    exact List.mem_map_of_mem (shapeOrder db)
      (List.mem_filter.mpr ⟨ho, by simp [hdel]⟩)
  · intro o h
    simp [shapeOrder, resolveSupplier, h]
  · intro o s h hdel
    simp [shapeOrder, resolveSupplier, h, hdel]
  · intro o s h hdel
    simp [shapeOrder, resolveSupplier, h, hdel]
  · intro o h
    simp [shapeOrder, resolveItem, h]
  · intro o i h hdel
    simp [shapeOrder, resolveItem, h, hdel]
  · intro o i h hdel
    simp [shapeOrder, resolveItem, h, hdel]
  · intro o h
    simp [shapeOrder, resolveUnit, h]
  · intro o u h hdel
    simp [shapeOrder, resolveUnit, h, hdel]
  · intro o u h hdel
    simp [shapeOrder, resolveUnit, h, hdel]

/-- Witness for C8: a store whose one order has a hard-deleted supplier, a
live item and a soft-deleted unit — the response substitutes the
placeholders, keeps the live item, and the committed store is unchanged. -/
theorem read_orders_spec_witness :
    (read_orders dbReadDemo).2 = dbReadDemo
    ∧ shapeOrder dbReadDemo demoOrder ∈ (read_orders dbReadDemo).1
    ∧ (shapeOrder dbReadDemo demoOrder).supplier = placeholderRef
    ∧ (shapeOrder dbReadDemo demoOrder).item = ⟨1, .text "I"⟩
    ∧ (shapeOrder dbReadDemo demoOrder).unit = placeholderRef :=
  ⟨(read_orders_spec dbReadDemo).1,
   (read_orders_spec dbReadDemo).2.2.1 demoOrder (by decide) (by decide),
   (read_orders_spec dbReadDemo).2.2.2.1 demoOrder (by decide),
   (read_orders_spec dbReadDemo).2.2.2.2.2.2.2.2.1 demoOrder
      ⟨1, .text "I", .null, some 1000, false, false⟩ (by decide) (by decide),
   (read_orders_spec dbReadDemo).2.2.2.2.2.2.2.2.2.2.1 demoOrder
      ⟨1, .text "개", .text "", true⟩ (by decide) (by decide)⟩

end Samsip
